import Mathlib

/-!
Shallow embedding of the Atlassian Terraform provider handlers in
`internal/provider/data_source_jira_status.go` (status data source, project
resource, issue-screen data source) and
`internal/provider/data_source_workflow_scheme.go` (workflow-scheme data
source).

Each handler operation is modelled as a pure function from the decoded
configuration/plan/state records and an oracle describing the remote Jira
client to a pair of (list of remote calls issued, operation outcome).
Runtime faults of the Go code (nil-pointer dereference, index out of range)
are modelled by the `Outcome.fault` constructor.
-/

/-- Model of the Terraform framework `types.String`: a string value that can
also be null or unknown. -/
inductive TfString where
  | null
  | unknown
  | value (s : String)
deriving DecidableEq, Repr

/-- Go `types.String.ValueString()`: the known value, or "" for null/unknown. -/
def TfString.valueString : TfString → String
  | .value s => s
  | _ => ""

/-- Model of the Terraform framework `types.Int64`. -/
inductive TfInt64 where
  | null
  | unknown
  | value (v : Int)
deriving DecidableEq, Repr

/-- Go `types.Int64.ValueInt64()`: the known value, or 0 for null/unknown. -/
def TfInt64.valueInt64 : TfInt64 → Int
  | .value v => v
  | _ => 0

/-- Go `types.Int64.String()`: `<null>` / `<unknown>` / decimal rendering. -/
def TfInt64.toStringRepr : TfInt64 → String
  | .null => "<null>"
  | .unknown => "<unknown>"
  | .value v => toString v

/-- Accumulate a decimal number from a digit character list; any non-digit
character fails the whole parse. -/
def natOfDigitsAux : Nat → List Char → Option Nat
  | acc, [] => some acc
  | acc, c :: rest =>
    if c.isDigit then natOfDigitsAux (acc * 10 + (c.toNat - 48)) rest else none

/-- Parse a non-empty all-digit character list as a natural number. -/
def natOfDigits : List Char → Option Nat
  | [] => none
  | l => natOfDigitsAux 0 l

/-- Model of Go `strconv.Atoi`: an optional sign followed by at least one
decimal digit; anything else fails. -/
def goAtoi (s : String) : Option Int :=
  match s.data with
  | '-' :: rest => (natOfDigits rest).map (fun n => -(n : Int))
  | '+' :: rest => (natOfDigits rest).map (fun n => (n : Int))
  | l => (natOfDigits l).map (fun n => (n : Int))

/-- Model of Go `strings.Split` with a one-character separator, over the
character list of the string: splitting the empty string yields one empty
field, and every separator occurrence starts a new field. -/
def splitOnChar (sep : Char) : List Char → List (List Char)
  | [] => [[]]
  | c :: rest =>
    if c == sep then [] :: splitOnChar sep rest
    else
      match splitOnChar sep rest with
      | [] => [[c]]
      | h :: t => (c :: h) :: t

/-- Locate the `://` marker that separates a URL scheme from its authority,
returning the characters after it. -/
def afterSchemeMarker : List Char → Option (List Char)
  | ':' :: '/' :: '/' :: rest => some rest
  | _ :: rest => afterSchemeMarker rest
  | [] => none

/-- Model of the `.Path` component produced by Go `url.Parse`: the fragment
and query are stripped; for an absolute URL the `scheme://host` part is
dropped and the path starts at the first `/` after the authority; a
scheme-less string is its own path. -/
def urlPath (u : String) : String :=
  let noFrag := u.data.takeWhile (fun c => c ≠ '#')
  let noQuery := noFrag.takeWhile (fun c => c ≠ '?')
  match afterSchemeMarker noQuery with
  | some rest => String.mk (rest.dropWhile (fun c => c ≠ '/'))
  | none => String.mk noQuery

/-- The avatar-id extraction done in project Read and Update:
`strings.Split(urlPath, "/")[9]` followed by `strconv.Atoi` with the error
ignored.  `none` models the Go index-out-of-range fault when the split has
fewer than 10 elements; a non-numeric segment yields 0 (`Atoi` error
discarded). -/
def avatarIdFromUrl (u : String) : Option Int :=
  ((splitOnChar '/' (urlPath u).data)[9]?).map
    (fun seg => (goAtoi (String.mk seg)).getD 0)

/-- Outcome of one handler operation: a persisted state record, a
`Diagnostics.AddError` diagnostic, a `Diagnostics.AddAttributeError`
diagnostic attributed to an attribute path, or a Go runtime fault. -/
inductive Outcome (σ : Type) where
  | ok (state : σ)
  | diag (summary detail : String)
  | attrDiag (attrPath summary detail : String)
  | fault (msg : String)
deriving DecidableEq, Repr

/-- Result of one remote call: a payload on success, or an error message plus
an optional raw response body (`none` models a nil `*models.ResponseScheme`). -/
inductive RemoteResult (α : Type) where
  | ok (payload : α)
  | err (msg : String) (body : Option String)
deriving DecidableEq, Repr

/-- Error handling used by Create and the three data sources: the raw body is
read only after a nil check (`if res != nil`), so a missing response gives an
empty body string. -/
def guardedErr {σ : Type} (intro msg : String) (body : Option String) : Outcome σ :=
  .diag "Client Error" (intro ++ msg ++ "\n" ++ body.getD "")

/-- Error handling used by project Read, Update and Delete: the raw body is
read as `res.Bytes.String()` with no nil check, so a missing response is a
nil-pointer dereference fault. -/
def unguardedErr {σ : Type} (intro msg : String) (body : Option String) : Outcome σ :=
  match body with
  | some b => .diag "Client Error" (intro ++ msg ++ "\n" ++ b)
  | none => .fault "runtime error: invalid memory address or nil pointer dereference"

/-! ## Remote payload shapes (from go-atlassian models) -/

/-- `models.NewProjectCreatedScheme`: the project create response; its `ID`
field is an `int`. -/
structure NewProjectCreatedScheme where
  id : Int
deriving DecidableEq, Repr

/-- The `AvatarUrls` struct of a project response; only the `One6X16` field
("16x16") is read by the handlers. -/
structure AvatarUrlsScheme where
  one6x16 : String
deriving DecidableEq, Repr

/-- The `Lead` user of a project response; only `AccountID` is read. -/
structure ProjectUserScheme where
  accountID : String
deriving DecidableEq, Repr

/-- `models.ProjectScheme`: the project get/update response (fields the
handlers read; `ID` is a string here). -/
structure ProjectScheme where
  id : String
  key : String
  name : String
  description : String
  avatarUrls : AvatarUrlsScheme
  lead : ProjectUserScheme
  projectTypeKey : String
  url : String
deriving DecidableEq, Repr

/-- `models.ProjectPayloadScheme` as filled by Create (lines 287-298). -/
structure ProjectPayloadScheme where
  key : String
  name : String
  description : String
  avatarID : Int
  fieldConfigurationScheme : Int
  issueTypeScheme : Int
  issueTypeScreenScheme : Int
  leadAccountID : String
  projectTypeKey : String
  url : String
  workflowScheme : Int
deriving DecidableEq, Repr

/-- `models.ProjectUpdateScheme` as filled by Update (lines 398-404). -/
structure ProjectUpdateScheme where
  key : String
  name : String
  description : String
  avatarID : Int
  projectTypeKey : String
  url : String
deriving DecidableEq, Repr

/-- One issue-type-scheme record inside an association (`IssueTypeScheme`
field); only `ID` (a string) and `Name` are read. -/
structure IssueTypeSchemeScheme where
  id : String
  name : String
deriving DecidableEq, Repr

/-- One issue-type-scheme-to-project association: the scheme plus its
membership list `ProjectIds` (a slice of strings in go-atlassian). -/
structure IssueTypeSchemeProjects where
  issueTypeScheme : IssueTypeSchemeScheme
  projectIds : List String
deriving DecidableEq, Repr

/-- The paged response of `Issue.Type.Scheme.Projects`. -/
structure ProjectIssueTypeSchemePage where
  values : List IssueTypeSchemeProjects
deriving DecidableEq, Repr

/-- A workflow-scheme response: only name and description are read. -/
structure WorkflowSchemeScheme where
  name : String
  description : String
deriving DecidableEq, Repr

/-- A status detail record: the fields read by the status data source. -/
structure StatusScheme where
  name : String
  description : String
  statusCategory : String
deriving DecidableEq, Repr

/-- One screen record of the screen search page. -/
structure ScreenScheme where
  name : String
  description : String
deriving DecidableEq, Repr

/-- The paged response of `Screen.Gets`. -/
structure ScreenSearchPage where
  values : List ScreenScheme
deriving DecidableEq, Repr

/-- `models.ScreenParamsScheme` with the `IDs` filter used by the handler. -/
structure ScreenParamsScheme where
  ids : List Int
deriving DecidableEq, Repr

/-! ## State records (the `tfsdk` models) -/

/-- `jiraProjectResourceModel`. -/
structure jiraProjectResourceModel where
  id : TfString
  key : TfString
  name : TfString
  description : TfString
  avatarId : TfInt64
  fieldConfigurationScheme : TfInt64
  issueTypeScheme : TfInt64
  issueTypeScreenScheme : TfInt64
  workflowScheme : TfInt64
  leadAccountId : TfString
  projectTypeKey : TfString
  url : TfString
deriving DecidableEq, Repr

/-- `jiraStatusDataSourceModel`. -/
structure jiraStatusDataSourceModel where
  id : TfString
  name : TfString
  description : TfString
  category : TfString
deriving DecidableEq, Repr

/-- `jiraWorkflowSchemeDataSourceModel`. -/
structure jiraWorkflowSchemeDataSourceModel where
  id : TfString
  name : TfString
  description : TfString
deriving DecidableEq, Repr

/-- `jiraIssueScreenDataSourceModel`. -/
structure jiraIssueScreenDataSourceModel where
  id : TfString
  name : TfString
  description : TfString
deriving DecidableEq, Repr

/-! ## Remote call traces and oracles -/

/-- The remote calls a project lifecycle operation can issue, with the
arguments the handler passes. -/
inductive ProjectCall where
  | create (payload : ProjectPayloadScheme)
  | get (id : String)
  | schemeProjects (ids : List Int) (startAt maxResults : Int)
  | update (id : String) (payload : ProjectUpdateScheme)
  | assign (issueTypeSchemeID : String) (projectID : String)
  | delete (id : String) (enableUndo : Bool)
deriving DecidableEq, Repr

/-- Oracle describing the remote Jira client as seen by the project
resource: each method maps its arguments to the result the remote returns. -/
structure ProjectRemote where
  create : ProjectPayloadScheme → RemoteResult NewProjectCreatedScheme
  get : String → RemoteResult ProjectScheme
  schemeProjects : List Int → Int → Int → RemoteResult ProjectIssueTypeSchemePage
  update : String → ProjectUpdateScheme → RemoteResult ProjectScheme
  assign : String → String → RemoteResult Unit
  delete : String → Bool → RemoteResult Unit

/-- Calls a status lookup can issue (`Workflow.Status.Gets`). -/
inductive StatusCall where
  | gets (ids : List String)
deriving DecidableEq, Repr

/-- Calls a workflow-scheme lookup can issue (`Workflow.Scheme.Get`). -/
inductive WorkflowSchemeCall where
  | get (id : Int) (isDraft : Bool)
deriving DecidableEq, Repr

/-- Calls an issue-screen lookup can issue (`Screen.Gets`). -/
inductive ScreenCall where
  | gets (params : ScreenParamsScheme) (startAt maxResults : Int)
deriving DecidableEq, Repr

/-! ## Field mapping helpers -/

/-- The create payload built from the plan (Create lines 287-298); 64-bit
plan integers are the `int` payload fields. -/
def mkProjectPayload (plan : jiraProjectResourceModel) : ProjectPayloadScheme :=
  { key := plan.key.valueString
    name := plan.name.valueString
    description := plan.description.valueString
    avatarID := plan.avatarId.valueInt64
    fieldConfigurationScheme := plan.fieldConfigurationScheme.valueInt64
    issueTypeScheme := plan.issueTypeScheme.valueInt64
    issueTypeScreenScheme := plan.issueTypeScreenScheme.valueInt64
    leadAccountID := plan.leadAccountId.valueString
    projectTypeKey := plan.projectTypeKey.valueString
    url := plan.url.valueString
    workflowScheme := plan.workflowScheme.valueInt64 }

/-- The update payload built from the plan (Update lines 398-404). -/
def mkProjectUpdatePayload (plan : jiraProjectResourceModel) : ProjectUpdateScheme :=
  { key := plan.key.valueString
    name := plan.name.valueString
    description := plan.description.valueString
    avatarID := plan.avatarId.valueInt64
    projectTypeKey := plan.projectTypeKey.valueString
    url := plan.url.valueString }

/-- The association scan of project Read (lines 358-367).  The Go inner loop
is `for issueTypeSchemeProjectId := range issueTypeScheme.ProjectIds`, and a
one-variable `range` over a slice yields the INDICES of the slice, so each
index of the membership list is compared with the project id; on a match the
scheme id is parsed (parse error discarded, yielding 0) and stored, and the
inner loop breaks.  The outer loop keeps going over all associations. -/
def readSchemeLoop (projectIDInt : Int) (values : List IssueTypeSchemeProjects)
    (state : jiraProjectResourceModel) : jiraProjectResourceModel :=
  values.foldl
    (fun st assoc =>
      if (List.range assoc.projectIds.length).any (fun i => (i : Int) == projectIDInt)
      then { st with issueTypeScheme := .value ((goAtoi assoc.issueTypeScheme.id).getD 0) }
      else st)
    state

/-! ## Handler operations -/

/-- `jiraProjectResource.Create` (lines 275-317): build the payload from the
plan, issue one create call; on success the state is the plan with only `id`
replaced by `strconv.Itoa` of the remote-assigned numeric id.  The error path
nil-checks the response. -/
def jiraProjectResource.Create (remote : ProjectRemote) (plan : jiraProjectResourceModel) :
    List ProjectCall × Outcome jiraProjectResourceModel :=
  let payload := mkProjectPayload plan
  match remote.create payload with
  | .err msg body =>
    ([.create payload], guardedErr "Unable to create project, got error: " msg body)
  | .ok returned =>
    ([.create payload], .ok { plan with id := .value (toString returned.id) })

/-- `jiraProjectResource.Read` (lines 319-373): fetch the project by the
state's id, populate fields from the response, derive `avatarId` from path
segment 9 of the 16x16 avatar URL (fault if the path is too short), then
fetch issue-type-scheme associations filtered by the project id with paging
(0, 1) and run the association scan.  Both error paths dereference the
response body without a nil check. -/
def jiraProjectResource.Read (remote : ProjectRemote) (state : jiraProjectResourceModel) :
    List ProjectCall × Outcome jiraProjectResourceModel :=
  let projectID := state.id.valueString
  match remote.get projectID with
  | .err msg body =>
    ([.get projectID], unguardedErr "Unable to get project, got error: " msg body)
  | .ok project =>
    match avatarIdFromUrl project.avatarUrls.one6x16 with
    | none => ([.get projectID], .fault "runtime error: index out of range")
    | some avatarID =>
      let state1 : jiraProjectResourceModel :=
        { state with
          id := .value project.id
          key := .value project.key
          name := .value project.name
          description := .value project.description
          avatarId := .value avatarID
          leadAccountId := .value project.lead.accountID
          projectTypeKey := .value project.projectTypeKey
          url := .value project.url }
      let projectIDInt : Int := (goAtoi projectID).getD 0
      match remote.schemeProjects [projectIDInt] 0 1 with
      | .err msg body =>
        ([.get projectID, .schemeProjects [projectIDInt] 0 1],
          unguardedErr "Unable to get issue type schemes for project, got error: " msg body)
      | .ok page =>
        ([.get projectID, .schemeProjects [projectIDInt] 0 1],
          .ok (readSchemeLoop projectIDInt page.values state1))

/-- `jiraProjectResource.Update` (lines 375-437): update keyed by the prior
state's id with a payload built from the plan; then unconditionally assign
`plan.IssueTypeScheme.String()` to the returned project id; then recompute
the avatar id from the update response and assemble a fresh state record
from the response plus the plan's issue-type scheme (all other model fields
are the zero value, i.e. null).  Both error paths dereference the response
body without a nil check. -/
def jiraProjectResource.Update (remote : ProjectRemote)
    (plan state : jiraProjectResourceModel) :
    List ProjectCall × Outcome jiraProjectResourceModel :=
  let projectID := state.id.valueString
  let payload := mkProjectUpdatePayload plan
  match remote.update projectID payload with
  | .err msg body =>
    ([.update projectID payload],
      unguardedErr "Unable to update issue type, got error: " msg body)
  | .ok returned =>
    match remote.assign plan.issueTypeScheme.toStringRepr returned.id with
    | .err msg body =>
      ([.update projectID payload, .assign plan.issueTypeScheme.toStringRepr returned.id],
        unguardedErr "Unable to assign issue type scheme to project, got error: " msg body)
    | .ok _ =>
      match avatarIdFromUrl returned.avatarUrls.one6x16 with
      | none =>
        ([.update projectID payload, .assign plan.issueTypeScheme.toStringRepr returned.id],
          .fault "runtime error: index out of range")
      | some avatarID =>
        ([.update projectID payload, .assign plan.issueTypeScheme.toStringRepr returned.id],
          .ok
            { id := .value returned.id
              key := .value returned.key
              name := .value returned.name
              description := .value returned.description
              avatarId := .value avatarID
              fieldConfigurationScheme := .null
              issueTypeScheme := .value plan.issueTypeScheme.valueInt64
              issueTypeScreenScheme := .null
              workflowScheme := .null
              leadAccountId := .value returned.lead.accountID
              projectTypeKey := .value returned.projectTypeKey
              url := .value returned.url })

/-- `jiraProjectResource.Delete` (lines 439-457): one delete call keyed by
the state's id with the boolean query flag fixed to `false`; on success
nothing else happens (the host runtime removes the record).  The error path
dereferences the response body without a nil check. -/
def jiraProjectResource.Delete (remote : ProjectRemote) (state : jiraProjectResourceModel) :
    List ProjectCall × Outcome Unit :=
  match remote.delete state.id.valueString false with
  | .err msg body =>
    ([.delete state.id.valueString false],
      unguardedErr "Unable to delete project, got error: " msg body)
  | .ok _ => ([.delete state.id.valueString false], .ok ())

/-- `jiraStatusDataSource.Read` (lines 85-122): reject an empty id without
calling the remote; otherwise issue one `Status.Gets` call scoped to the id
and take element 0 of the returned slice (index-out-of-range fault when it
is empty).  The error path nil-checks the response. -/
def jiraStatusDataSource.Read (remote : List String → RemoteResult (List StatusScheme))
    (config : jiraStatusDataSourceModel) :
    List StatusCall × Outcome jiraStatusDataSourceModel :=
  let statusId := config.id.valueString
  if statusId == "" then
    ([], .attrDiag "id" "Unable to parse value of \"id\" attribute."
      "Value of \"id\" attribute can only be a numeric string.")
  else
    match remote [statusId] with
    | .err msg body =>
      ([.gets [statusId]], guardedErr "Unable to get Jira status, got error: " msg body)
    | .ok statuses =>
      match statuses[0]? with
      | none => ([.gets [statusId]], .fault "runtime error: index out of range")
      | some s =>
        ([.gets [statusId]],
          .ok { config with
                name := .value s.name
                description := .value s.description
                category := .value s.statusCategory })

/-- `jiraWorkflowSchemeDataSource.Read` (workflow scheme file, lines 78-114):
parse the id with `strconv.Atoi`, rejecting non-numeric ids without calling
the remote; otherwise issue one `Workflow.Scheme.Get` call with draft flag
`false` and map name/description.  The error path nil-checks the response. -/
def jiraWorkflowSchemeDataSource.Read
    (remote : Int → Bool → RemoteResult WorkflowSchemeScheme)
    (config : jiraWorkflowSchemeDataSourceModel) :
    List WorkflowSchemeCall × Outcome jiraWorkflowSchemeDataSourceModel :=
  match goAtoi config.id.valueString with
  | none =>
    ([], .attrDiag "id" "Unable to parse value of \"id\" attribute."
      "Value of \"id\" attribute can only be a numeric string.")
  | some workflowSchemeId =>
    match remote workflowSchemeId false with
    | .err msg body =>
      ([.get workflowSchemeId false],
        guardedErr "Unable to get Jira workflow scheme, got error: " msg body)
    | .ok ws =>
      ([.get workflowSchemeId false],
        .ok { config with name := .value ws.name, description := .value ws.description })

/-- `jiraIssueScreenDataSource.Read` (lines 539-579): parse the id with
`strconv.Atoi`, rejecting non-numeric ids without calling the remote;
otherwise issue one `Screen.Gets` call filtered to the id with paging
(0, 50) and take element 0 of the returned values (index-out-of-range fault
when empty).  The error path nil-checks the response. -/
def jiraIssueScreenDataSource.Read
    (remote : ScreenParamsScheme → Int → Int → RemoteResult ScreenSearchPage)
    (config : jiraIssueScreenDataSourceModel) :
    List ScreenCall × Outcome jiraIssueScreenDataSourceModel :=
  match goAtoi config.id.valueString with
  | none =>
    ([], .attrDiag "id" "Unable to parse value of \"id\" attribute."
      "Value of \"id\" attribute can only be a numeric string.")
  | some issueScreenId =>
    let params : ScreenParamsScheme := { ids := [issueScreenId] }
    match remote params 0 50 with
    | .err msg body =>
      ([.gets params 0 50], guardedErr "Unable to get issue screen, got error: " msg body)
    | .ok page =>
      match page.values[0]? with
      | none => ([.gets params 0 50], .fault "runtime error: index out of range")
      | some v =>
        ([.gets params 0 50],
          .ok { config with name := .value v.name, description := .value v.description })

/-! ## Concrete inputs used by claim C1 -/

/-- A well-formed 16x16 avatar URL whose 10th path segment is `10324`. -/
def c1AvatarUrl : String :=
  "https://site.example.com/rest/api/3/universal_avatar/view/type/project/avatar/10324"

/-- The project returned by the remote for claim C1's run of Read. -/
def c1Project : ProjectScheme :=
  { id := "1", key := "TES", name := "Test Project", description := ""
    avatarUrls := { one6x16 := c1AvatarUrl }
    lead := { accountID := "acct-1" }
    projectTypeKey := "software", url := "" }

/-- The single association returned for claim C1: scheme id 5 whose
membership list holds the two project ids 10001 and 10002 — it does NOT
contain project id 1. -/
def c1Assoc : IssueTypeSchemeProjects :=
  { issueTypeScheme := { id := "5", name := "Scheme Five" }
    projectIds := ["10001", "10002"] }

/-- Remote oracle for claim C1's run of Read. -/
def c1Remote : ProjectRemote :=
  { create := fun _ => .err "unused" none
    get := fun _ => .ok c1Project
    schemeProjects := fun _ _ _ => .ok { values := [c1Assoc] }
    update := fun _ _ => .err "unused" none
    assign := fun _ _ => .err "unused" none
    delete := fun _ _ => .err "unused" none }

/-- Prior state for claim C1: project id "1", issueTypeScheme previously 777. -/
def c1State : jiraProjectResourceModel :=
  { id := .value "1", key := .value "TES", name := .value "Test Project"
    description := .value "", avatarId := .value 10324
    fieldConfigurationScheme := .null, issueTypeScheme := .value 777
    issueTypeScreenScheme := .null, workflowScheme := .null
    leadAccountId := .value "acct-1", projectTypeKey := .value "software"
    url := .value "" }

/-- The issueTypeScheme stored by an outcome, when it is a success. -/
def outcomeIssueTypeScheme : Outcome jiraProjectResourceModel → Option TfInt64
  | .ok st => some st.issueTypeScheme
  | _ => none

/-- **C1**: the claim says Read scans each association's membership list for
the project's numeric id and sets state.issueTypeScheme only when the id is
found in some membership list.  The code instead iterates
`for i := range ProjectIds`, comparing the loop INDEX with the project id.
At project id 1 with the single association's membership list
["10001", "10002"] — which contains neither the string "1" nor the number
1 — the claim requires issueTypeScheme to keep its prior value 777, but the
code sets it to the association's scheme id 5 because index 1 exists. -/
theorem projectRead_issueTypeScheme_index_bug :
    ("1" ∉ c1Assoc.projectIds) ∧
    (∀ pid ∈ c1Assoc.projectIds, goAtoi pid ≠ some 1) ∧
    c1State.issueTypeScheme = TfInt64.value 777 ∧
    outcomeIssueTypeScheme (jiraProjectResource.Read c1Remote c1State).2 =
      some (TfInt64.value 5) := by
  refine ⟨by decide, by decide, rfl, rfl⟩

/-- **C4**: for every Update invocation — any remote, any plan, any prior
state, in particular plans whose id differs from the state's — the primary
project-update call (the first remote call issued) is keyed by the prior
state's id with the payload built from the plan. -/
theorem update_keyed_on_state_id (remote : ProjectRemote)
    (plan state : jiraProjectResourceModel) :
    ((jiraProjectResource.Update remote plan state).1).head? =
      some (.update state.id.valueString (mkProjectUpdatePayload plan)) := by
  simp only [jiraProjectResource.Update]
  split
  · rfl
  · split
    · rfl
    · split <;> rfl

/-- **C9**: every Delete invocation issues exactly one remote call — the
delete keyed by the state's id with the cascade/undo query flag fixed to
`false` — and on success the outcome is plain success with no further calls. -/
theorem delete_single_call (remote : ProjectRemote) (state : jiraProjectResourceModel) :
    (jiraProjectResource.Delete remote state).1 =
      [.delete state.id.valueString false] ∧
    (remote.delete state.id.valueString false = .ok () →
      (jiraProjectResource.Delete remote state).2 = .ok ()) := by
  simp only [jiraProjectResource.Delete]
  cases h : remote.delete state.id.valueString false with
  | err msg body => exact ⟨rfl, fun hc => by simp at hc⟩
  | ok u => exact ⟨rfl, fun _ => rfl⟩

/-- A remote whose delete call succeeds, for C9's witness. -/
def c9Remote : ProjectRemote :=
  { create := fun _ => .err "unused" none
    get := fun _ => .err "unused" none
    schemeProjects := fun _ _ _ => .err "unused" none
    update := fun _ _ => .err "unused" none
    assign := fun _ _ => .err "unused" none
    delete := fun _ _ => .ok () }

/-- Witness for C9 at a concrete state and remote: one delete call keyed by
the state id "1" with flag false, and plain success. -/
theorem delete_single_call_witness :
    (jiraProjectResource.Delete c9Remote c1State).1 = [.delete "1" false] ∧
    (jiraProjectResource.Delete c9Remote c1State).2 = .ok () :=
  ⟨(delete_single_call c9Remote c1State).1, (delete_single_call c9Remote c1State).2 rfl⟩

/-- **C2**: for every Status or IssueScreen lookup whose remote call
succeeds, the handler takes exactly the first element of the returned
collection to populate name/description (and category for Status); when the
returned collection is empty the operation ends in the index-out-of-range
runtime fault rather than a handled diagnostic. -/
theorem lookup_first_element
    (sconf : jiraStatusDataSourceModel) (iconf : jiraIssueScreenDataSourceModel)
    (sremote : List String → RemoteResult (List StatusScheme))
    (iremote : ScreenParamsScheme → Int → Int → RemoteResult ScreenSearchPage)
    (statuses : List StatusScheme) (page : ScreenSearchPage) (iid : Int)
    (hsid : sconf.id.valueString ≠ "")
    (hsrem : sremote [sconf.id.valueString] = .ok statuses)
    (hiid : goAtoi iconf.id.valueString = some iid)
    (hirem : iremote { ids := [iid] } 0 50 = .ok page) :
    ((∀ s rest, statuses = s :: rest →
        (jiraStatusDataSource.Read sremote sconf).2 =
          .ok { sconf with
                name := .value s.name
                description := .value s.description
                category := .value s.statusCategory }) ∧
      (statuses = [] →
        (jiraStatusDataSource.Read sremote sconf).2 =
          .fault "runtime error: index out of range")) ∧
    ((∀ v rest, page.values = v :: rest →
        (jiraIssueScreenDataSource.Read iremote iconf).2 =
          .ok { iconf with
                name := .value v.name
                description := .value v.description }) ∧
      (page.values = [] →
        (jiraIssueScreenDataSource.Read iremote iconf).2 =
          .fault "runtime error: index out of range")) := by
  have hbeq : (sconf.id.valueString == "") = false := by simp [hsid]
  refine ⟨⟨?_, ?_⟩, ?_, ?_⟩
  · intro s rest hst
    simp [jiraStatusDataSource.Read, hbeq, hsrem, hst]
  · intro hst
    simp [jiraStatusDataSource.Read, hbeq, hsrem, hst]
  · intro v rest hv
    simp [jiraIssueScreenDataSource.Read, hiid, hirem, hv]
  · intro hv
    simp [jiraIssueScreenDataSource.Read, hiid, hirem, hv]

/-- Status config with id "3" for C2's witness. -/
def c2StatusConf : jiraStatusDataSourceModel :=
  { id := .value "3", name := .null, description := .null, category := .null }

/-- Screen config with id "7" for C2's witness. -/
def c2ScreenConf : jiraIssueScreenDataSourceModel :=
  { id := .value "7", name := .null, description := .null }

/-- First status returned by C2's witness remote. -/
def c2Status : StatusScheme :=
  { name := "Open", description := "Open status", statusCategory := "TODO" }

/-- Second status returned by C2's witness remote (must be ignored). -/
def c2OtherStatus : StatusScheme :=
  { name := "Closed", description := "Closed status", statusCategory := "DONE" }

/-- First screen returned by C2's witness remote. -/
def c2Screen : ScreenScheme := { name := "Default Screen", description := "d" }

/-- Status remote for C2's witness: returns a two-element collection. -/
def c2StatusRemote : List String → RemoteResult (List StatusScheme) :=
  fun _ => .ok [c2Status, c2OtherStatus]

/-- Screen remote for C2's witness. -/
def c2ScreenRemote : ScreenParamsScheme → Int → Int → RemoteResult ScreenSearchPage :=
  fun _ _ _ => .ok { values := [c2Screen] }

/-- Witness for C2: both lookups pick exactly the first returned element. -/
theorem lookup_first_element_witness :
    (jiraStatusDataSource.Read c2StatusRemote c2StatusConf).2 =
      .ok { c2StatusConf with
            name := .value "Open"
            description := .value "Open status"
            category := .value "TODO" } ∧
    (jiraIssueScreenDataSource.Read c2ScreenRemote c2ScreenConf).2 =
      .ok { c2ScreenConf with
            name := .value "Default Screen"
            description := .value "d" } :=
  ⟨(lookup_first_element c2StatusConf c2ScreenConf c2StatusRemote c2ScreenRemote
      [c2Status, c2OtherStatus] { values := [c2Screen] } 7
      (by decide) rfl (by decide) rfl).1.1 c2Status [c2OtherStatus] rfl,
   (lookup_first_element c2StatusConf c2ScreenConf c2StatusRemote c2ScreenRemote
      [c2Status, c2OtherStatus] { values := [c2Screen] } 7
      (by decide) rfl (by decide) rfl).2.1 c2Screen [] rfl⟩

/-- Prior state for C3's counterexample (project id "10001"). -/
def c3State : jiraProjectResourceModel :=
  { id := .value "10001", key := .value "TES", name := .value "Test Project"
    description := .value "", avatarId := .value 10324
    fieldConfigurationScheme := .null, issueTypeScheme := .value 5
    issueTypeScreenScheme := .null, workflowScheme := .null
    leadAccountId := .value "acct-1", projectTypeKey := .value "software"
    url := .value "" }

/-- A remote whose calls all fail with no response object attached, as for a
pure transport failure. -/
def c3Remote : ProjectRemote :=
  { create := fun _ => .err "connection refused" none
    get := fun _ => .err "connection refused" none
    schemeProjects := fun _ _ _ => .err "connection refused" none
    update := fun _ _ => .err "connection refused" none
    assign := fun _ _ => .err "connection refused" none
    delete := fun _ _ => .err "connection refused" none }

/-- **C3** counterexample: the claim says the error path of every project
lifecycle operation is well-defined even when no response object accompanies
the error.  Delete (like Read and Update) reads `res.Bytes.String()` with no
nil check, so with an error and no response the concrete run below ends in a
nil-pointer-dereference fault and produces no diagnostic at all. -/
theorem delete_nil_response_fault :
    (jiraProjectResource.Delete c3Remote c3State).2 =
      .fault "runtime error: invalid memory address or nil pointer dereference" ∧
    (∀ s d, (jiraProjectResource.Delete c3Remote c3State).2 ≠ .diag s d) := by
  refine ⟨rfl, ?_⟩
  intro s d h
  rw [show (jiraProjectResource.Delete c3Remote c3State).2 =
      .fault "runtime error: invalid memory address or nil pointer dereference"
      from rfl] at h
  exact Outcome.noConfusion h

/-- **C3** amended: when a remote call of a project lifecycle operation
returns an error, the operation aborts after that single call; Create
nil-checks the response and always produces the diagnostic (empty body when
the response is missing), while Read, Update and Delete dereference the
response unconditionally, so they produce the diagnostic embedding message
plus raw body only when a response object is present and fault on a nil
response. -/
theorem remote_error_paths
    (remote : ProjectRemote) (plan state : jiraProjectResourceModel)
    (msg : String) (body : Option String)
    (hc : remote.create (mkProjectPayload plan) = .err msg body)
    (hg : remote.get state.id.valueString = .err msg body)
    (hu : remote.update state.id.valueString (mkProjectUpdatePayload plan) = .err msg body)
    (hd : remote.delete state.id.valueString false = .err msg body) :
    jiraProjectResource.Create remote plan =
      ([.create (mkProjectPayload plan)],
        .diag "Client Error"
          ("Unable to create project, got error: " ++ msg ++ "\n" ++ body.getD "")) ∧
    jiraProjectResource.Read remote state =
      ([.get state.id.valueString],
        unguardedErr "Unable to get project, got error: " msg body) ∧
    jiraProjectResource.Update remote plan state =
      ([.update state.id.valueString (mkProjectUpdatePayload plan)],
        unguardedErr "Unable to update issue type, got error: " msg body) ∧
    jiraProjectResource.Delete remote state =
      ([.delete state.id.valueString false],
        unguardedErr "Unable to delete project, got error: " msg body) ∧
    (body = none → ∀ t : String,
      (unguardedErr t msg body : Outcome jiraProjectResourceModel) =
        .fault "runtime error: invalid memory address or nil pointer dereference") ∧
    (∀ b, body = some b → ∀ t : String,
      (unguardedErr t msg body : Outcome jiraProjectResourceModel) =
        .diag "Client Error" (t ++ msg ++ "\n" ++ b)) := by
  refine ⟨?_, ?_, ?_, ?_, ?_, ?_⟩
  · simp [jiraProjectResource.Create, hc, guardedErr]
  · simp [jiraProjectResource.Read, hg]
  · simp [jiraProjectResource.Update, hu]
  · simp [jiraProjectResource.Delete, hd]
  · intro hb t; subst hb; rfl
  · intro b hb t; subst hb; rfl

/-- A remote whose calls all fail with message "boom" and raw body "raw",
for C3's witness. -/
def c3wRemote : ProjectRemote :=
  { create := fun _ => .err "boom" (some "raw")
    get := fun _ => .err "boom" (some "raw")
    schemeProjects := fun _ _ _ => .err "boom" (some "raw")
    update := fun _ _ => .err "boom" (some "raw")
    assign := fun _ _ => .err "boom" (some "raw")
    delete := fun _ _ => .err "boom" (some "raw") }

/-- Witness for the amended C3: with a response body present, Delete aborts
with the diagnostic embedding the message and the raw body. -/
theorem remote_error_paths_witness :
    jiraProjectResource.Delete c3wRemote c3State =
      ([.delete "10001" false],
        .diag "Client Error" "Unable to delete project, got error: boom\nraw") :=
  (remote_error_paths c3wRemote c3State c3State "boom" (some "raw")
    rfl rfl rfl rfl).2.2.2.1

/-- **C7**: a WorkflowScheme or IssueScreen lookup whose id string does not
parse as an integer aborts with the validation error attributed to the "id"
attribute and issues zero remote calls. -/
theorem nonnumeric_id_validation
    (wremote : Int → Bool → RemoteResult WorkflowSchemeScheme)
    (iremote : ScreenParamsScheme → Int → Int → RemoteResult ScreenSearchPage)
    (wconf : jiraWorkflowSchemeDataSourceModel) (iconf : jiraIssueScreenDataSourceModel)
    (hw : goAtoi wconf.id.valueString = none)
    (hi : goAtoi iconf.id.valueString = none) :
    jiraWorkflowSchemeDataSource.Read wremote wconf =
      ([], .attrDiag "id" "Unable to parse value of \"id\" attribute."
        "Value of \"id\" attribute can only be a numeric string.") ∧
    jiraIssueScreenDataSource.Read iremote iconf =
      ([], .attrDiag "id" "Unable to parse value of \"id\" attribute."
        "Value of \"id\" attribute can only be a numeric string.") := by
  constructor
  · simp [jiraWorkflowSchemeDataSource.Read, hw]
  · simp [jiraIssueScreenDataSource.Read, hi]

/-- Workflow-scheme config with the non-numeric id "abc". -/
def c7WConf : jiraWorkflowSchemeDataSourceModel :=
  { id := .value "abc", name := .null, description := .null }

/-- Issue-screen config with the non-numeric id "12a". -/
def c7IConf : jiraIssueScreenDataSourceModel :=
  { id := .value "12a", name := .null, description := .null }

/-- Witness for C7 at the non-numeric ids "abc" and "12a". -/
theorem nonnumeric_id_validation_witness :
    jiraWorkflowSchemeDataSource.Read (fun _ _ => .err "unused" none) c7WConf =
      ([], .attrDiag "id" "Unable to parse value of \"id\" attribute."
        "Value of \"id\" attribute can only be a numeric string.") ∧
    jiraIssueScreenDataSource.Read (fun _ _ _ => .err "unused" none) c7IConf =
      ([], .attrDiag "id" "Unable to parse value of \"id\" attribute."
        "Value of \"id\" attribute can only be a numeric string.") :=
  nonnumeric_id_validation (fun _ _ => .err "unused" none)
    (fun _ _ _ => .err "unused" none) c7WConf c7IConf (by decide) (by decide)

/-- **C8**: for every successful Create, the persisted state equals the
submitted plan with exactly one field changed — id becomes the decimal
string rendering of the remote-assigned numeric id; no other field is
re-read from the response. -/
theorem create_state_from_plan
    (remote : ProjectRemote) (plan : jiraProjectResourceModel)
    (returned : NewProjectCreatedScheme)
    (hc : remote.create (mkProjectPayload plan) = .ok returned) :
    jiraProjectResource.Create remote plan =
      ([.create (mkProjectPayload plan)],
        .ok { plan with id := .value (toString returned.id) }) := by
  simp [jiraProjectResource.Create, hc]

/-- Plan for C8's witness, matching the spec scenario: key "TES",
name "Test Project", projectTypeKey "software". -/
def c8Plan : jiraProjectResourceModel :=
  { id := .unknown, key := .value "TES", name := .value "Test Project"
    description := .value "", avatarId := .null
    fieldConfigurationScheme := .null, issueTypeScheme := .null
    issueTypeScreenScheme := .null, workflowScheme := .null
    leadAccountId := .value "acct-1", projectTypeKey := .value "software"
    url := .value "" }

/-- Remote for C8's witness: create succeeds and assigns numeric id 10001. -/
def c8Remote : ProjectRemote :=
  { create := fun _ => .ok { id := 10001 }
    get := fun _ => .err "unused" none
    schemeProjects := fun _ _ _ => .err "unused" none
    update := fun _ _ => .err "unused" none
    assign := fun _ _ => .err "unused" none
    delete := fun _ _ => .err "unused" none }

/-- Witness for C8: the state is the plan with id replaced by "10001"; in
particular state.key is still "TES". -/
theorem create_state_from_plan_witness :
    jiraProjectResource.Create c8Remote c8Plan =
      ([.create (mkProjectPayload c8Plan)],
        .ok { c8Plan with id := .value "10001" }) :=
  create_state_from_plan c8Remote c8Plan { id := 10001 } rfl

/-- **C5**: in every Update invocation whose primary update call succeeds,
the second remote call is the issue-type-scheme assignment of the plan's
issueTypeScheme (as rendered by `String()`, so `<null>` when unset) to the
returned project's id — no guard suppresses it. -/
theorem update_assign_unconditional
    (remote : ProjectRemote) (plan state : jiraProjectResourceModel)
    (returned : ProjectScheme)
    (hupd : remote.update state.id.valueString (mkProjectUpdatePayload plan) =
      .ok returned) :
    ((jiraProjectResource.Update remote plan state).1)[1]? =
      some (.assign plan.issueTypeScheme.toStringRepr returned.id) := by
  simp only [jiraProjectResource.Update, hupd]
  split
  · rfl
  · split <;> rfl

/-- Plan for C5's witness with issueTypeScheme unset (null). -/
def c5Plan : jiraProjectResourceModel :=
  { id := .value "10001", key := .value "TES", name := .value "Test Project"
    description := .value "", avatarId := .value 10324
    fieldConfigurationScheme := .null, issueTypeScheme := .null
    issueTypeScreenScheme := .null, workflowScheme := .null
    leadAccountId := .value "acct-1", projectTypeKey := .value "software"
    url := .value "" }

/-- The project returned by the update call of C5's and C6's witnesses. -/
def c5Returned : ProjectScheme :=
  { id := "10001", key := "TES", name := "Test Project", description := "d"
    avatarUrls := { one6x16 := c1AvatarUrl }
    lead := { accountID := "acct-2" }
    projectTypeKey := "software", url := "u" }

/-- Remote for C5's witness: update succeeds, assignment errors. -/
def c5Remote : ProjectRemote :=
  { create := fun _ => .err "unused" none
    get := fun _ => .err "unused" none
    schemeProjects := fun _ _ _ => .err "unused" none
    update := fun _ _ => .ok c5Returned
    assign := fun _ _ => .err "bad request" (some "scheme 0 not found")
    delete := fun _ _ => .err "unused" none }

/-- Witness for C5: with issueTypeScheme unset the assignment call still
fires, with the rendered scheme id `<null>`. -/
theorem update_assign_unconditional_witness :
    ((jiraProjectResource.Update c5Remote c5Plan c5Plan).1)[1]? =
      some (.assign "<null>" "10001") :=
  update_assign_unconditional c5Remote c5Plan c5Plan c5Returned rfl

/-- **C6**: for every successful Update the final state record is assembled
entirely from the update response plus the plan's issueTypeScheme, with
avatarId recomputed from the response's 16x16 avatar URL; the record below
mentions no field of the prior state, and the three scheme fields absent
from the response (fieldConfigurationScheme, issueTypeScreenScheme,
workflowScheme) end up null rather than carried over. -/
theorem update_final_state_from_response
    (remote : ProjectRemote) (plan state : jiraProjectResourceModel)
    (returned : ProjectScheme) (a : Int)
    (hupd : remote.update state.id.valueString (mkProjectUpdatePayload plan) =
      .ok returned)
    (hassign : remote.assign plan.issueTypeScheme.toStringRepr returned.id = .ok ())
    (hav : avatarIdFromUrl returned.avatarUrls.one6x16 = some a) :
    (jiraProjectResource.Update remote plan state).2 =
      .ok { id := .value returned.id
            key := .value returned.key
            name := .value returned.name
            description := .value returned.description
            avatarId := .value a
            fieldConfigurationScheme := .null
            issueTypeScheme := .value plan.issueTypeScheme.valueInt64
            issueTypeScreenScheme := .null
            workflowScheme := .null
            leadAccountId := .value returned.lead.accountID
            projectTypeKey := .value returned.projectTypeKey
            url := .value returned.url } := by
  simp [jiraProjectResource.Update, hupd, hassign, hav]

/-- Prior state for C6's witness with all three scheme fields set, to show
they are not carried into the final state. -/
def c6State : jiraProjectResourceModel :=
  { id := .value "10001", key := .value "OLD", name := .value "Old Name"
    description := .value "old", avatarId := .value 1
    fieldConfigurationScheme := .value 99, issueTypeScheme := .value 777
    issueTypeScreenScheme := .value 88, workflowScheme := .value 66
    leadAccountId := .value "acct-0", projectTypeKey := .value "business"
    url := .value "old-url" }

/-- Plan for C6's witness with issueTypeScheme 5. -/
def c6Plan : jiraProjectResourceModel :=
  { c5Plan with issueTypeScheme := .value 5 }

/-- Remote for C6's witness: update and assignment both succeed. -/
def c6Remote : ProjectRemote :=
  { create := fun _ => .err "unused" none
    get := fun _ => .err "unused" none
    schemeProjects := fun _ _ _ => .err "unused" none
    update := fun _ _ => .ok c5Returned
    assign := fun _ _ => .ok ()
    delete := fun _ _ => .err "unused" none }

/-- Witness for C6: despite the prior state's scheme fields 99/88/66, the
final state has them null, and every populated field comes from the update
response (plus issueTypeScheme 5 from the plan and avatarId 10324 from the
response's avatar URL). -/
theorem update_final_state_from_response_witness :
    (jiraProjectResource.Update c6Remote c6Plan c6State).2 =
      .ok { id := .value "10001"
            key := .value "TES"
            name := .value "Test Project"
            description := .value "d"
            avatarId := .value 10324
            fieldConfigurationScheme := .null
            issueTypeScheme := .value 5
            issueTypeScreenScheme := .null
            workflowScheme := .null
            leadAccountId := .value "acct-2"
            projectTypeKey := .value "software"
            url := .value "u" } :=
  update_final_state_from_response c6Remote c6Plan c6State c5Returned 10324
    rfl rfl rfl

/-- **C10**: in every project Read that reaches the association lookup, that
lookup is issued with pagination start 0 and page length 1; and whenever the
returned page honors the requested page length (at most one value), the
association scan inspects at most the first association. -/
theorem read_scheme_lookup_pagination
    (remote : ProjectRemote) (state : jiraProjectResourceModel)
    (project : ProjectScheme) (a : Int)
    (hg : remote.get state.id.valueString = .ok project)
    (hav : avatarIdFromUrl project.avatarUrls.one6x16 = some a) :
    ((jiraProjectResource.Read remote state).1)[1]? =
      some (.schemeProjects [(goAtoi state.id.valueString).getD 0] 0 1) ∧
    (∀ page : ProjectIssueTypeSchemePage, page.values.length ≤ 1 →
      ∀ pid st, readSchemeLoop pid page.values st =
        readSchemeLoop pid (page.values.take 1) st) := by
  constructor
  · simp only [jiraProjectResource.Read, hg, hav]
    split <;> rfl
  · intro page hlen pid st
    rw [List.take_of_length_le hlen]

/-- Witness for C10 at a concrete remote and state: the second call of Read
is the association lookup for numeric project id 1 with paging (0, 1). -/
theorem read_scheme_lookup_pagination_witness :
    ((jiraProjectResource.Read c1Remote c1State).1)[1]? =
      some (.schemeProjects [1] 0 1) ∧
    readSchemeLoop 1 [c1Assoc] c1State = readSchemeLoop 1 ([c1Assoc].take 1) c1State :=
  ⟨(read_scheme_lookup_pagination c1Remote c1State c1Project 10324 rfl rfl).1,
   (read_scheme_lookup_pagination c1Remote c1State c1Project 10324 rfl rfl).2
     { values := [c1Assoc] } (by decide) 1 c1State⟩
